import Mathlib

/-!
# PDGlove: bounded sample storage, sensor multiplexer and ESP-NOW send status

A shallow embedding of the firmware headers

* `Glove_Calibration/data_storage.h` (the sample arrays and their counters),
* `Glove_Refactored/sensors.h` and `Glove_Calibration/sensors.h` (`readSensors`),
* `Glove_Refactored/esp_now_comm.h` (`OnDataSent`, `sendESPNowData`),
* `Glove_Refactored/sampling.h` (the sampling constants, `startSampling` and the sample
  cycle `onSampleTimer`),

followed by the properties established about them.

Conventions of the embedding.

* C `int` is `Int`; no counter of the program leaves the range `0 .. 1300`, so no
  wrap-around arises. `uint32_t` is `Nat` (a value below `2 ^ 32`, stored unchanged).
* C `float` values are exact rationals. The only float operations of the embedded code
  are storing a value, converting an integer pin reading to `float`, the constant `0`, and
  division by `16384.0`, `8192.0` (powers of two) or `4095.0`.
* The global arrays are maps from the index written between the brackets to the slot
  contents; the slots of an array are the indices `0 ≤ i < MAX_DATA_POINTS`.
* `Serial` output is not part of the program state. Where a branch does nothing but print,
  the printed line is given by a separate function.
-/

namespace PDGlove

/-! ## `data_storage.h` -/

/-- The constant `const int MAX_DATA_POINTS = 1300;`. -/
def MAX_DATA_POINTS : Int := 1300

/-- The global arrays and counters of `data_storage.h`. -/
structure DataStorage where
  Array_index : Int → Int
  Array_time_ms : Int → Nat
  Array_mode : Int → Int
  Array_value1 : Int → ℚ
  Array_value2 : Int → ℚ
  Array_value3 : Int → ℚ
  iti_number : Int
  max_iti_number : Int

/-- The function `initDataStorage()`: every slot of every array is set to `0`, then both
counters are set to `0`. -/
def initDataStorage : DataStorage where
  Array_index := fun _ => 0
  Array_time_ms := fun _ => 0
  Array_mode := fun _ => 0
  Array_value1 := fun _ => 0
  Array_value2 := fun _ => 0
  Array_value3 := fun _ => 0
  iti_number := 0
  max_iti_number := 0

/-- The function `storeDataPoint(time_ms, mode, value1, value2, value3)`: when
`iti_number < MAX_DATA_POINTS` the record is written at slot `iti_number`,
`max_iti_number` takes the value of `iti_number`, and `iti_number` is incremented;
otherwise only a warning is printed. -/
def storeDataPoint (s : DataStorage) (time_ms : Nat) (mode : Int)
    (value1 value2 value3 : ℚ) : DataStorage :=
  if s.iti_number < MAX_DATA_POINTS then
    { Array_index := Function.update s.Array_index s.iti_number s.iti_number
      Array_time_ms := Function.update s.Array_time_ms s.iti_number time_ms
      Array_mode := Function.update s.Array_mode s.iti_number mode
      Array_value1 := Function.update s.Array_value1 s.iti_number value1
      Array_value2 := Function.update s.Array_value2 s.iti_number value2
      Array_value3 := Function.update s.Array_value3 s.iti_number value3
      max_iti_number := s.iti_number
      iti_number := s.iti_number + 1 }
  else
    s

/-- The lines `storeDataPoint` prints on `Serial`: the warning of its `else` branch. -/
def storeDataPoint_serial (s : DataStorage) : List String :=
  if s.iti_number < MAX_DATA_POINTS then [] else ["Warning: Maximum data points reached!"]

/-- The function `calculateFrequency()`: `max_iti_number / 10` when `max_iti_number > 0`,
else `0`. C integer division truncates toward zero, as `Int.tdiv` does. -/
def calculateFrequency (s : DataStorage) : Int :=
  if s.max_iti_number > 0 then Int.tdiv s.max_iti_number 10 else 0

/-- The function `resetDataStorage()`: `iti_number = 0;` and nothing else. -/
def resetDataStorage (s : DataStorage) : DataStorage :=
  { s with iti_number := 0 }

/-- One call made on the storage: `storeDataPoint` with its five arguments, or
`resetDataStorage`. -/
inductive StorageCall where
  | store (time_ms : Nat) (mode : Int) (value1 value2 value3 : ℚ)
  | reset

/-- The effect of one call on the storage. -/
def StorageCall.run (s : DataStorage) : StorageCall → DataStorage
  | .store time_ms mode value1 value2 value3 => storeDataPoint s time_ms mode value1 value2 value3
  | .reset => resetDataStorage s

/-- The effect of a sequence of calls, made in order. -/
def runCalls (s : DataStorage) (calls : List StorageCall) : DataStorage :=
  calls.foldl StorageCall.run s

/-- The arguments of one `storeDataPoint` call. -/
structure DataPoint where
  time_ms : Nat
  mode : Int
  value1 : ℚ
  value2 : ℚ
  value3 : ℚ

/-- A run of `storeDataPoint` calls, one per data point, in order. -/
def storeAll (s : DataStorage) (points : List DataPoint) : DataStorage :=
  points.foldl (fun st p => storeDataPoint st p.time_ms p.mode p.value1 p.value2 p.value3) s

/-- The record held at slot `i`, read from the five data arrays. -/
def DataStorage.record (s : DataStorage) (i : Int) : DataPoint where
  time_ms := s.Array_time_ms i
  mode := s.Array_mode i
  value1 := s.Array_value1 i
  value2 := s.Array_value2 i
  value3 := s.Array_value3 i

/-- The data points of `n` ticks at 10 ms spacing in mode 3: tick `k` carries
`time_ms = 10 * k` and the values `(k, 0, 0)`. -/
def tickPoints (n : Nat) : List DataPoint :=
  (List.range n).map fun k =>
    { time_ms := 10 * k, mode := 3, value1 := (k : ℚ), value2 := 0, value3 := 0 }

/-! ## `sampling.h`: the sampling configuration -/

/-- The constant `const int SAMPLING_RATE_HZ = 100;`. -/
def SAMPLING_RATE_HZ : Int := 100

/-- The constant `const int SAMPLING_PERIOD_US = 1000000 / SAMPLING_RATE_HZ;`. -/
def SAMPLING_PERIOD_US : Int := Int.tdiv 1000000 SAMPLING_RATE_HZ

/-- The constant `const int MEASUREMENT_DURATION_MS = 10500;`. -/
def MEASUREMENT_DURATION_MS : Int := 10500

/-- The frequency as the specification words it: the sample count divided by the fixed
session duration of 10.5 seconds, to integer precision. With the duration in
milliseconds this is `L * 1000 / 10500`, rounded down. -/
def spec_frequency_hz (L : Int) : Int :=
  L * 1000 / MEASUREMENT_DURATION_MS

/-! ## `sensors.h` -/

/-- What `readSensors` reads from outside: the IMU globals of `imu_handler.h` and the
pin readings `analogRead(pin)`. -/
structure SensorProvider where
  roll1 : ℚ
  pitch1 : ℚ
  yaw1 : ℚ
  roll2 : ℚ
  pitch2 : ℚ
  yaw2 : ℚ
  accelX1 : ℚ
  accelY1 : ℚ
  accelZ1 : ℚ
  accelX2 : ℚ
  accelY2 : ℚ
  accelZ2 : ℚ
  analogRead : Int → Int

/-- The five output parameters `value1 .. value5` of `readSensors`. -/
structure Values5 where
  value1 : ℚ
  value2 : ℚ
  value3 : ℚ
  value4 : ℚ
  value5 : ℚ
deriving DecidableEq

/-- The three output parameters `value1 .. value3` of the 3-value `readSensors`. -/
structure Values3 where
  value1 : ℚ
  value2 : ℚ
  value3 : ℚ
deriving DecidableEq

namespace Glove_Refactored

/-- Pin of the contact sensor. -/
def contactPin : Int := 14
/-- Pin of force sensor 1. -/
def forcePin1 : Int := 25
/-- Pin of force sensor 2. -/
def forcePin2 : Int := 26
/-- Pin of force sensor 3. -/
def forcePin3 : Int := 32
/-- Pin of force sensor 4. -/
def forcePin4 : Int := 33

/-- The 5-value `readSensors(mode, value1, .., value5)` of `Glove_Refactored/sensors.h`:
a `switch` on `mode` with cases 1, 2, 3 and `default`; every branch assigns all five
outputs. -/
def readSensors (p : SensorProvider) (mode : Int) : Values5 :=
  if mode = 1 then
    { value1 := p.accelX2 / 16384
      value2 := p.accelY2 / 16384
      value3 := p.accelZ2 / 16384
      value4 := 0
      value5 := 0 }
  else if mode = 2 then
    { value1 := (p.analogRead contactPin : ℚ)
      value2 := p.roll1
      value3 := p.roll2
      value4 := 0
      value5 := 0 }
  else if mode = 3 then
    { value1 := (p.analogRead forcePin1 : ℚ)
      value2 := (p.analogRead forcePin2 : ℚ)
      value3 := p.roll2
      value4 := (p.analogRead forcePin3 : ℚ)
      value5 := (p.analogRead forcePin4 : ℚ) }
  else
    { value1 := 0, value2 := 0, value3 := 0, value4 := 0, value5 := 0 }

/-- The overload `readSensors(mode, value1, value2, value3)` "for backward compatibility":
it calls the 5-value version with two local variables and keeps the first three
outputs. -/
def readSensors3 (p : SensorProvider) (mode : Int) : Values3 :=
  let v := readSensors p mode
  { value1 := v.value1, value2 := v.value2, value3 := v.value3 }

end Glove_Refactored

namespace Glove_Calibration

/-- Pin of the contact sensor. -/
def contactPin : Int := 14
/-- Pin of force sensor 1. -/
def forcePin1 : Int := 25
/-- Pin of force sensor 2. -/
def forcePin2 : Int := 26
/-- Pin of the analog sensor used for tremor and bradykinesia. -/
def analogPin4 : Int := 4

/-- The 3-value `readSensors(mode, value1, value2, value3)` of
`Glove_Calibration/sensors.h`: a `switch` on `mode` with cases 1, 2, 3 and `default`;
every branch assigns all three outputs. -/
def readSensors (p : SensorProvider) (mode : Int) : Values3 :=
  if mode = 1 then
    { value1 := (p.analogRead analogPin4 : ℚ)
      value2 := p.accelY2 / 8192
      value3 := p.accelZ2 / 8192 }
  else if mode = 2 then
    { value1 := (p.analogRead analogPin4 : ℚ)
      value2 := p.roll1
      value3 := p.roll2 }
  else if mode = 3 then
    { value1 := (p.analogRead forcePin1 : ℚ) / 4095
      value2 := (p.analogRead forcePin2 : ℚ) / 4095
      value3 := p.roll2 }
  else
    { value1 := 0, value2 := 0, value3 := 0 }

end Glove_Calibration

/-- A provider snapshot with every analog channel at the top of the 12-bit range (4095),
unit 1 rolled 30 degrees, unit 2 rolled -45 degrees and 1 g (16384 LSB) on the Z axis of
unit 2. -/
def saturatedProvider : SensorProvider where
  roll1 := 30
  pitch1 := 0
  yaw1 := 0
  roll2 := -45
  pitch2 := 0
  yaw2 := 0
  accelX1 := 0
  accelY1 := 0
  accelZ1 := 16384
  accelX2 := 0
  accelY2 := 0
  accelZ2 := 16384
  analogRead := fun _ => 4095

/-! ## `esp_now_comm.h` -/

/-- The ESP-IDF value `ESP_OK` of `esp_err_t`, which is `0`. -/
def ESP_OK : Int := 0

/-- The ESP-IDF value `ESP_NOW_SEND_SUCCESS` of `esp_now_send_status_t`, which is `0`. -/
def ESP_NOW_SEND_SUCCESS : Int := 0

/-- The ESP-IDF value `ESP_NOW_SEND_FAIL` of `esp_now_send_status_t`, which is `1`. -/
def ESP_NOW_SEND_FAIL : Int := 1

/-- The two global flags of `esp_now_comm.h`. -/
structure CommState where
  sending_error : Bool
  RECEIVED_COMMAND : Bool
deriving DecidableEq

/-- The flags as the header initialises them: both `false`. -/
def CommState.initial : CommState :=
  { sending_error := false, RECEIVED_COMMAND := false }

/-- The callback `OnDataSent(mac_addr, status)`: it prints the status and, when
`status != ESP_NOW_SEND_SUCCESS`, sets `sending_error = true`. -/
def OnDataSent (c : CommState) (status : Int) : CommState :=
  if status ≠ ESP_NOW_SEND_SUCCESS then { c with sending_error := true } else c

/-- The function `sendESPNowData()`, given the `esp_err_t result` that `esp_now_send`
returns: on `ESP_OK` it returns `true`; otherwise it sets `sending_error = true` and
returns `false`. -/
def sendESPNowData (c : CommState) (result : Int) : Bool × CommState :=
  if result = ESP_OK then (true, c) else (false, { c with sending_error := true })

/-- One transport event of a session: a completion callback with its status, or a
submission with the result `esp_now_send` gives it. -/
inductive CommEvent where
  | completion (status : Int)
  | submission (result : Int)

/-- The effect of one event on the flags. -/
def CommEvent.run (c : CommState) : CommEvent → CommState
  | .completion status => OnDataSent c status
  | .submission result => (sendESPNowData c result).2

/-- The effect of a sequence of events, in order. -/
def runEvents (c : CommState) (events : List CommEvent) : CommState :=
  events.foldl CommEvent.run c

/-- An event is a failure when it is a completion with a status other than success, or a
submission that is rejected. -/
def CommEvent.failed : CommEvent → Bool
  | .completion status => decide (status ≠ ESP_NOW_SEND_SUCCESS)
  | .submission result => decide (result ≠ ESP_OK)

/-- The failure record of a session read as a number: the flag `sending_error`, the one
record of failed sends the header keeps, as C converts a `bool` to an integer (1 when
set, 0 when clear). -/
def CommState.recordedFailures (c : CommState) : Nat :=
  if c.sending_error then 1 else 0

/-! ## `sampling.h`: the sample cycle -/

/-- Subtraction of two `uint32_t` values, `a - b` in C: the difference modulo `2 ^ 32`.
Both operands are below `2 ^ 32`. -/
def uint32_sub (a b : Nat) : Nat :=
  (a + 2 ^ 32 - b) % 2 ^ 32

/-- The two storage functions `sampling.h` calls, `storeDataPoint` with seven arguments
and `resetDataStorage`. They belong to the `data_storage.h` of `Glove_Refactored`, and
are taken as given here, over any storage type. -/
structure StorageOps (σ : Type) where
  storeDataPoint : σ → Nat → Int → ℚ → ℚ → ℚ → ℚ → ℚ → σ
  resetDataStorage : σ → σ

/-- The globals `sampling.h` works on: `measurementStartMicros`, `measurementMode`, the
period `samplingTimer` is armed with (`none` while it is stopped), and the storage. -/
structure Sampling (σ : Type) where
  measurementStartMicros : Nat
  measurementMode : Int
  samplingTimer : Option Int
  storage : σ

/-- The timer callback `onSampleTimer(arg)`, given the provider snapshot and the value
`micros()` returns: `elapsed_ms = (now_micros - measurementStartMicros) / 1000` in
`uint32_t`, then `readSensors` with five outputs, then `storeDataPoint`. -/
def onSampleTimer {σ : Type} (ops : StorageOps σ) (p : SensorProvider) (now_micros : Nat)
    (st : Sampling σ) : Sampling σ :=
  let elapsed_ms := uint32_sub now_micros st.measurementStartMicros / 1000
  let v := Glove_Refactored.readSensors p st.measurementMode
  { st with
    storage := ops.storeDataPoint st.storage elapsed_ms st.measurementMode
      v.value1 v.value2 v.value3 v.value4 v.value5 }

/-- The function `startSampling(mode)`, given the value `micros()` returns: it stores the
mode, resets the storage, records the start time and arms the timer with
`SAMPLING_PERIOD_US`. -/
def startSampling {σ : Type} (ops : StorageOps σ) (mode : Int) (now_micros : Nat)
    (st : Sampling σ) : Sampling σ :=
  { measurementMode := mode
    storage := ops.resetDataStorage st.storage
    measurementStartMicros := now_micros
    samplingTimer := some SAMPLING_PERIOD_US }

/-- The function `stopSampling()`: the timer is stopped. -/
def stopSampling {σ : Type} (st : Sampling σ) : Sampling σ :=
  { st with samplingTimer := none }

/-- A storage that keeps the list of the `elapsed_ms` values it was given, newest first,
and is emptied by a reset. -/
def elapsedLog : StorageOps (List Nat) where
  storeDataPoint := fun log elapsed_ms _ _ _ _ _ _ => elapsed_ms :: log
  resetDataStorage := fun _ => []

/-! ## Properties of the sample storage -/

theorem runCalls_nil (s : DataStorage) : runCalls s [] = s := rfl

theorem runCalls_cons (s : DataStorage) (c : StorageCall) (cs : List StorageCall) :
    runCalls s (c :: cs) = runCalls (c.run s) cs := rfl

theorem storeDataPoint_of_full (s : DataStorage) (time_ms : Nat) (mode : Int)
    (value1 value2 value3 : ℚ) (h : MAX_DATA_POINTS ≤ s.iti_number) :
    storeDataPoint s time_ms mode value1 value2 value3 = s := by
  unfold storeDataPoint
  rw [if_neg (not_lt.mpr h)]

theorem storeDataPoint_iti_number (s : DataStorage) (time_ms : Nat) (mode : Int)
    (value1 value2 value3 : ℚ) :
    (storeDataPoint s time_ms mode value1 value2 value3).iti_number =
      if s.iti_number < MAX_DATA_POINTS then s.iti_number + 1 else s.iti_number := by
  unfold storeDataPoint
  split <;> rfl

/-- The length bound is kept by every call. -/
theorem run_iti_number_bounded (s : DataStorage) (c : StorageCall)
    (h : 0 ≤ s.iti_number ∧ s.iti_number ≤ MAX_DATA_POINTS) :
    0 ≤ (c.run s).iti_number ∧ (c.run s).iti_number ≤ MAX_DATA_POINTS := by
  cases c with
  | store time_ms mode value1 value2 value3 =>
    simp only [StorageCall.run, storeDataPoint_iti_number]
    split <;> omega
  | reset =>
    simp [StorageCall.run, resetDataStorage, MAX_DATA_POINTS]

theorem runCalls_iti_number_bounded (calls : List StorageCall) :
    ∀ s : DataStorage, (0 ≤ s.iti_number ∧ s.iti_number ≤ MAX_DATA_POINTS) →
      0 ≤ (runCalls s calls).iti_number ∧ (runCalls s calls).iti_number ≤ MAX_DATA_POINTS := by
  induction calls with
  | nil => intro s h; exact h
  | cons c cs ih =>
    intro s h
    rw [runCalls_cons]
    exact ih _ (run_iti_number_bounded s c h)

/-- The index invariant is kept by every call: below `iti_number`, slot `i` of
`Array_index` holds `i`. -/
theorem run_Array_index (s : DataStorage) (c : StorageCall)
    (h : ∀ i : Int, 0 ≤ i → i < s.iti_number → s.Array_index i = i) :
    ∀ i : Int, 0 ≤ i → i < (c.run s).iti_number → (c.run s).Array_index i = i := by
  cases c with
  | store time_ms mode value1 value2 value3 =>
    intro i h0 hi
    simp only [StorageCall.run, storeDataPoint] at hi ⊢
    split at hi
    · rename_i hlt
      rw [if_pos hlt]
      simp only at hi ⊢
      by_cases hEq : i = s.iti_number
      · rw [hEq, Function.update_same]
      · rw [Function.update_noteq hEq]
        exact h i h0 (by omega)
    · rename_i hge
      rw [if_neg hge]
      exact h i h0 hi
  | reset =>
    intro i h0 hi
    simp only [StorageCall.run, resetDataStorage] at hi
    omega

theorem runCalls_Array_index (calls : List StorageCall) :
    ∀ s : DataStorage, (∀ i : Int, 0 ≤ i → i < s.iti_number → s.Array_index i = i) →
      ∀ i : Int, 0 ≤ i → i < (runCalls s calls).iti_number →
        (runCalls s calls).Array_index i = i := by
  induction calls with
  | nil => intro s h; exact h
  | cons c cs ih =>
    intro s h
    rw [runCalls_cons]
    exact ih _ (run_Array_index s c h)

/-- C1. In every storage state reached from `initDataStorage` by a sequence of
`storeDataPoint` and `resetDataStorage` calls, `0 ≤ iti_number ≤ MAX_DATA_POINTS`; and a
`storeDataPoint` call made when `iti_number = 1300` leaves `iti_number` at 1300. -/
theorem iti_number_within_capacity :
    (∀ calls : List StorageCall,
      0 ≤ (runCalls initDataStorage calls).iti_number ∧
        (runCalls initDataStorage calls).iti_number ≤ MAX_DATA_POINTS) ∧
    (∀ (s : DataStorage) (time_ms : Nat) (mode : Int) (value1 value2 value3 : ℚ),
      s.iti_number = 1300 →
        (storeDataPoint s time_ms mode value1 value2 value3).iti_number = 1300) := by
  refine ⟨fun calls => ?_, ?_⟩
  · apply runCalls_iti_number_bounded
    simp [initDataStorage, MAX_DATA_POINTS]
  · intro s time_ms mode value1 value2 value3 h
    rw [storeDataPoint_of_full s _ _ _ _ _ (by rw [h]; simp [MAX_DATA_POINTS]), h]

/-- C1 at a concrete call sequence (two stores, a reset, one store) and at a concrete
full state. -/
theorem iti_number_within_capacity_witness :
    (0 ≤ (runCalls initDataStorage
        [.store 0 1 0 0 0, .store 10 1 0 0 0, .reset, .store 0 2 5 1 1]).iti_number ∧
      (runCalls initDataStorage
        [.store 0 1 0 0 0, .store 10 1 0 0 0, .reset, .store 0 2 5 1 1]).iti_number
        ≤ MAX_DATA_POINTS) ∧
    (storeDataPoint { initDataStorage with iti_number := 1300, max_iti_number := 1299 }
      10490 3 1 2 3).iti_number = 1300 :=
  ⟨iti_number_within_capacity.1 _, iti_number_within_capacity.2 _ _ _ _ _ _ rfl⟩

/-- C2. When `iti_number ≥ MAX_DATA_POINTS`, `storeDataPoint` returns the state it was
given: every slot of the six arrays and both counters are as before the call. -/
theorem storeDataPoint_full_unchanged (s : DataStorage) (time_ms : Nat) (mode : Int)
    (value1 value2 value3 : ℚ) (h : s.iti_number ≥ MAX_DATA_POINTS) :
    storeDataPoint s time_ms mode value1 value2 value3 = s :=
  storeDataPoint_of_full s time_ms mode value1 value2 value3 h

/-- C2 at a full buffer whose slots hold their own indices. -/
theorem storeDataPoint_full_unchanged_witness :
    ({ initDataStorage with
        Array_index := fun i => i, iti_number := 1300, max_iti_number := 1299 }
      : DataStorage).iti_number ≥ MAX_DATA_POINTS ∧
    storeDataPoint { initDataStorage with
        Array_index := fun i => i, iti_number := 1300, max_iti_number := 1299 }
      10500 3 7 8 9 =
      { initDataStorage with
        Array_index := fun i => i, iti_number := 1300, max_iti_number := 1299 } :=
  ⟨by decide, storeDataPoint_full_unchanged _ _ _ _ _ _ (by decide)⟩

/-- C3. In every storage state reached from `initDataStorage` by a sequence of
`storeDataPoint` and `resetDataStorage` calls, `Array_index[i] = i` at every position
`0 ≤ i < iti_number`. -/
theorem Array_index_eq_position (calls : List StorageCall) (i : Int)
    (h0 : 0 ≤ i) (hi : i < (runCalls initDataStorage calls).iti_number) :
    (runCalls initDataStorage calls).Array_index i = i := by
  refine runCalls_Array_index calls initDataStorage ?_ i h0 hi
  intro j hj0 hj
  simp only [initDataStorage] at hj
  omega

/-- C3 at position 1 after three stores, a reset and two more stores. -/
theorem Array_index_eq_position_witness :
    (0 : Int) ≤ 1 ∧
    (1 : Int) < (runCalls initDataStorage
      [.store 0 1 0 0 0, .store 10 1 0 0 0, .store 20 1 0 0 0, .reset,
        .store 0 2 5 1 1, .store 10 2 5 1 1]).iti_number ∧
    (runCalls initDataStorage
      [.store 0 1 0 0 0, .store 10 1 0 0 0, .store 20 1 0 0 0, .reset,
        .store 0 2 5 1 1, .store 10 2 5 1 1]).Array_index 1 = 1 :=
  ⟨by decide, by decide, Array_index_eq_position _ 1 (by decide) (by decide)⟩

/-- C7. `resetDataStorage` yields a state with `iti_number = 0` in which every slot of the
six arrays holds what it held before the call. -/
theorem resetDataStorage_frame (s : DataStorage) :
    (resetDataStorage s).iti_number = 0 ∧
    (resetDataStorage s).Array_index = s.Array_index ∧
    (resetDataStorage s).Array_time_ms = s.Array_time_ms ∧
    (resetDataStorage s).Array_mode = s.Array_mode ∧
    (resetDataStorage s).Array_value1 = s.Array_value1 ∧
    (resetDataStorage s).Array_value2 = s.Array_value2 ∧
    (resetDataStorage s).Array_value3 = s.Array_value3 :=
  ⟨rfl, rfl, rfl, rfl, rfl, rfl, rfl⟩

/-! ## Properties of the sensor multiplexer -/

/-- C4. The 5-value `readSensors` returns, in mode 1, the three accelerations of unit 2
each divided by 16384 and then 0, 0; in mode 2, the raw reading of the contact pin (14),
`roll1`, `roll2` and then 0, 0; in mode 3, the readings of force pins 25 and 26, `roll2`,
and the readings of force pins 32 and 33. -/
theorem readSensors_slot_mapping (p : SensorProvider) :
    Glove_Refactored.readSensors p 1 =
      { value1 := p.accelX2 / 16384, value2 := p.accelY2 / 16384,
        value3 := p.accelZ2 / 16384, value4 := 0, value5 := 0 } ∧
    Glove_Refactored.readSensors p 2 =
      { value1 := ((p.analogRead 14 : Int) : ℚ), value2 := p.roll1,
        value3 := p.roll2, value4 := 0, value5 := 0 } ∧
    Glove_Refactored.readSensors p 3 =
      { value1 := ((p.analogRead 25 : Int) : ℚ), value2 := ((p.analogRead 26 : Int) : ℚ),
        value3 := p.roll2, value4 := ((p.analogRead 32 : Int) : ℚ),
        value5 := ((p.analogRead 33 : Int) : ℚ) } := by
  refine ⟨?_, ?_, ?_⟩
  · simp [Glove_Refactored.readSensors]
  · simp [Glove_Refactored.readSensors, Glove_Refactored.contactPin]
  · simp [Glove_Refactored.readSensors, Glove_Refactored.forcePin1,
      Glove_Refactored.forcePin2, Glove_Refactored.forcePin3, Glove_Refactored.forcePin4]

/-- C5. For a mode other than 1, 2 and 3, the 5-value `readSensors` returns five zeros,
and both 3-value versions (the compatibility overload and the calibration revision)
return three zeros. -/
theorem readSensors_unrecognized_mode (p : SensorProvider) (mode : Int)
    (h1 : mode ≠ 1) (h2 : mode ≠ 2) (h3 : mode ≠ 3) :
    Glove_Refactored.readSensors p mode =
      { value1 := 0, value2 := 0, value3 := 0, value4 := 0, value5 := 0 } ∧
    Glove_Refactored.readSensors3 p mode = { value1 := 0, value2 := 0, value3 := 0 } ∧
    Glove_Calibration.readSensors p mode = { value1 := 0, value2 := 0, value3 := 0 } := by
  refine ⟨?_, ?_, ?_⟩
  · simp [Glove_Refactored.readSensors, h1, h2, h3]
  · simp [Glove_Refactored.readSensors3, Glove_Refactored.readSensors, h1, h2, h3]
  · simp [Glove_Calibration.readSensors, h1, h2, h3]

/-- C5 at mode 0 (the initial value of `measurementMode`) with every analog channel
saturated. -/
theorem readSensors_unrecognized_mode_witness :
    ((0 : Int) ≠ 1 ∧ (0 : Int) ≠ 2 ∧ (0 : Int) ≠ 3) ∧
    Glove_Refactored.readSensors saturatedProvider 0 =
      { value1 := 0, value2 := 0, value3 := 0, value4 := 0, value5 := 0 } ∧
    Glove_Refactored.readSensors3 saturatedProvider 0 =
      { value1 := 0, value2 := 0, value3 := 0 } ∧
    Glove_Calibration.readSensors saturatedProvider 0 =
      { value1 := 0, value2 := 0, value3 := 0 } :=
  ⟨⟨by decide, by decide, by decide⟩,
    readSensors_unrecognized_mode saturatedProvider 0 (by decide) (by decide) (by decide)⟩

/-- C9, the code at a saturated force channel. Every analog reading of
`saturatedProvider` lies in `0 .. 4095`, yet the 5-value `readSensors` in mode 3 returns
the raw reading 4095 in `value1`, `value2`, `value4` and `value5`, none of which is at
most 1. The calibration revision divides the same reading by 4095 and returns 1. -/
theorem readSensors_stiffness_not_normalized :
    (∀ pin : Int, 0 ≤ saturatedProvider.analogRead pin ∧
      saturatedProvider.analogRead pin ≤ 4095) ∧
    Glove_Refactored.readSensors saturatedProvider 3 =
      { value1 := 4095, value2 := 4095, value3 := -45, value4 := 4095, value5 := 4095 } ∧
    ¬ (Glove_Refactored.readSensors saturatedProvider 3).value1 ≤ 1 ∧
    ¬ (Glove_Refactored.readSensors saturatedProvider 3).value2 ≤ 1 ∧
    ¬ (Glove_Refactored.readSensors saturatedProvider 3).value4 ≤ 1 ∧
    ¬ (Glove_Refactored.readSensors saturatedProvider 3).value5 ≤ 1 ∧
    (Glove_Calibration.readSensors saturatedProvider 3).value1 = 1 ∧
    (Glove_Calibration.readSensors saturatedProvider 3).value2 = 1 := by
  refine ⟨fun pin => ?_, ?_, ?_, ?_, ?_, ?_, ?_, ?_⟩ <;>
    norm_num [Glove_Refactored.readSensors, Glove_Calibration.readSensors,
      saturatedProvider]

/-! ## Runs of `storeDataPoint` calls -/

theorem resetDataStorage_iti_number (s : DataStorage) :
    (resetDataStorage s).iti_number = 0 := rfl

theorem storeAll_nil (s : DataStorage) : storeAll s [] = s := rfl

theorem storeAll_cons (s : DataStorage) (p : DataPoint) (ps : List DataPoint) :
    storeAll s (p :: ps) =
      storeAll (storeDataPoint s p.time_ms p.mode p.value1 p.value2 p.value3) ps := rfl

theorem storeAll_append (s : DataStorage) (ps qs : List DataPoint) :
    storeAll s (ps ++ qs) = storeAll (storeAll s ps) qs := by
  simp [storeAll]

theorem storeDataPoint_of_room (s : DataStorage) (p : DataPoint)
    (h : s.iti_number < MAX_DATA_POINTS) :
    (storeDataPoint s p.time_ms p.mode p.value1 p.value2 p.value3).iti_number
        = s.iti_number + 1 ∧
    (storeDataPoint s p.time_ms p.mode p.value1 p.value2 p.value3).max_iti_number
        = s.iti_number ∧
    (storeDataPoint s p.time_ms p.mode p.value1 p.value2 p.value3).Array_index s.iti_number
        = s.iti_number ∧
    (storeDataPoint s p.time_ms p.mode p.value1 p.value2 p.value3).record s.iti_number
        = p := by
  unfold storeDataPoint
  rw [if_pos h]
  simp [DataStorage.record]

/-- A store leaves the slots below `iti_number` as they were. -/
theorem storeDataPoint_below (s : DataStorage) (p : DataPoint) (i : Int)
    (hi : i < s.iti_number) :
    (storeDataPoint s p.time_ms p.mode p.value1 p.value2 p.value3).Array_index i
        = s.Array_index i ∧
    (storeDataPoint s p.time_ms p.mode p.value1 p.value2 p.value3).record i
        = s.record i := by
  unfold storeDataPoint
  have hne : i ≠ s.iti_number := by omega
  split
  · simp [DataStorage.record, Function.update_noteq hne]
  · exact ⟨rfl, rfl⟩

theorem storeDataPoint_iti_number_mono (s : DataStorage) (p : DataPoint) :
    s.iti_number ≤
      (storeDataPoint s p.time_ms p.mode p.value1 p.value2 p.value3).iti_number := by
  rw [storeDataPoint_iti_number]
  split <;> omega

/-- A run of stores leaves the slots below `iti_number` as they were. -/
theorem storeAll_below (ps : List DataPoint) :
    ∀ (s : DataStorage) (i : Int), i < s.iti_number →
      (storeAll s ps).Array_index i = s.Array_index i ∧
        (storeAll s ps).record i = s.record i := by
  induction ps with
  | nil => intro s i _; exact ⟨rfl, rfl⟩
  | cons p ps ih =>
    intro s i hi
    rw [storeAll_cons]
    have hmono := storeDataPoint_iti_number_mono s p
    have hstep := storeDataPoint_below s p i hi
    have hrest := ih (storeDataPoint s p.time_ms p.mode p.value1 p.value2 p.value3) i
      (by omega)
    exact ⟨hrest.1.trans hstep.1, hrest.2.trans hstep.2⟩

/-- While there is room for all of them, each store of a run advances `iti_number`. -/
theorem storeAll_iti_number (ps : List DataPoint) :
    ∀ s : DataStorage, s.iti_number + ps.length ≤ MAX_DATA_POINTS →
      (storeAll s ps).iti_number = s.iti_number + ps.length := by
  induction ps with
  | nil => intro s _; simp [storeAll]
  | cons p ps ih =>
    intro s h
    simp only [List.length_cons, Nat.cast_add, Nat.cast_one] at h
    have hroom : s.iti_number < MAX_DATA_POINTS := by omega
    have hstep := (storeDataPoint_of_room s p hroom).1
    rw [storeAll_cons, ih _ (by rw [hstep]; omega), hstep]
    simp only [List.length_cons, Nat.cast_add, Nat.cast_one]
    omega

/-- While there is room for all of them, the `j`-th store of a run fills slot
`iti_number + j` with its index and its data point. -/
theorem storeAll_slot (ps : List DataPoint) :
    ∀ s : DataStorage, s.iti_number + ps.length ≤ MAX_DATA_POINTS →
      ∀ (j : Nat) (hj : j < ps.length),
        (storeAll s ps).Array_index (s.iti_number + j) = s.iti_number + j ∧
          (storeAll s ps).record (s.iti_number + j) = ps[j] := by
  induction ps with
  | nil => intro s _ j hj; simp at hj
  | cons p ps ih =>
    intro s h j hj
    simp only [List.length_cons, Nat.cast_add, Nat.cast_one] at h
    have hroom : s.iti_number < MAX_DATA_POINTS := by omega
    obtain ⟨hiti, _, hidx, hrec⟩ := storeDataPoint_of_room s p hroom
    rw [storeAll_cons]
    cases j with
    | zero =>
      have hkeep := storeAll_below ps
        (storeDataPoint s p.time_ms p.mode p.value1 p.value2 p.value3) s.iti_number
        (by omega)
      simp only [Nat.cast_zero, add_zero, List.getElem_cons_zero]
      exact ⟨hkeep.1.trans hidx, hkeep.2.trans hrec⟩
    | succ k =>
      have hk : k < ps.length := by simpa using hj
      have hnext := ih (storeDataPoint s p.time_ms p.mode p.value1 p.value2 p.value3)
        (by rw [hiti]; omega) k hk
      rw [hiti] at hnext
      have hpos : s.iti_number + ((k + 1 : Nat) : Int) = s.iti_number + 1 + (k : Int) := by
        push_cast; ring
      rw [hpos]
      simpa using hnext

/-- While there is room for all of them, a non-empty run of stores leaves
`max_iti_number` at the index of its last record. -/
theorem storeAll_max_iti_number (ps : List DataPoint) :
    ∀ s : DataStorage, ps ≠ [] → s.iti_number + ps.length ≤ MAX_DATA_POINTS →
      (storeAll s ps).max_iti_number = s.iti_number + ps.length - 1 := by
  induction ps with
  | nil => intro s hne; exact absurd rfl hne
  | cons p ps ih =>
    intro s _ h
    simp only [List.length_cons, Nat.cast_add, Nat.cast_one] at h
    have hroom : s.iti_number < MAX_DATA_POINTS := by omega
    obtain ⟨hiti, hmax, _, _⟩ := storeDataPoint_of_room s p hroom
    rw [storeAll_cons]
    cases ps with
    | nil => simp [storeAll, hmax]
    | cons q qs =>
      rw [ih _ (by simp) (by rw [hiti]; simp only [List.length_cons, Nat.cast_add,
        Nat.cast_one] at h ⊢; omega), hiti]
      simp only [List.length_cons, Nat.cast_add, Nat.cast_one]
      omega

theorem tickPoints_length (n : Nat) : (tickPoints n).length = n := by
  simp [tickPoints]

theorem tickPoints_succ (n : Nat) :
    tickPoints (n + 1) = tickPoints n ++
      [{ time_ms := 10 * n, mode := 3, value1 := (n : ℚ), value2 := 0, value3 := 0 }] := by
  simp [tickPoints, List.range_succ]

/-! ## Frequency estimate and overflow -/

/-- After `resetDataStorage` and `L` calls of `storeDataPoint` with `1 ≤ L ≤ 1300`, all
`L` records are stored and `max_iti_number` holds the value `storeDataPoint` last gave
it. -/
theorem storeAll_after_reset_counters (s : DataStorage) (points : List DataPoint)
    (h1 : 1 ≤ points.length) (h2 : points.length ≤ 1300) :
    (storeAll (resetDataStorage s) points).iti_number = points.length ∧
    (storeAll (resetDataStorage s) points).max_iti_number = (points.length : Int) - 1 := by
  have hroom : (resetDataStorage s).iti_number + points.length ≤ MAX_DATA_POINTS := by
    simp only [resetDataStorage, MAX_DATA_POINTS]
    omega
  have hne : points ≠ [] := by
    intro h
    rw [h] at h1
    simp at h1
  have hiti := storeAll_iti_number points _ hroom
  have hmax := storeAll_max_iti_number points _ hne hroom
  rw [resetDataStorage_iti_number, zero_add] at hiti hmax
  exact ⟨hiti, hmax⟩

/-- C6, the part the code has by design. After `resetDataStorage` and `L` calls of
`storeDataPoint` with `1 ≤ L ≤ 1300`, all `L` records are stored and `calculateFrequency`
returns the counter `max_iti_number` divided by a timespan of 10 seconds, rounded down
(0 when the counter is 0); ten times the result does not exceed `L`, and `L` is less than
ten times the result plus 11. -/
theorem calculateFrequency_timespan_ten_seconds (s : DataStorage)
    (points : List DataPoint) (h1 : 1 ≤ points.length) (h2 : points.length ≤ 1300) :
    (storeAll (resetDataStorage s) points).iti_number = points.length ∧
    calculateFrequency (storeAll (resetDataStorage s) points)
      = (storeAll (resetDataStorage s) points).max_iti_number / 10 ∧
    10 * calculateFrequency (storeAll (resetDataStorage s) points) ≤ points.length ∧
    (points.length : Int)
      < 10 * calculateFrequency (storeAll (resetDataStorage s) points) + 11 := by
  obtain ⟨hiti, hmax⟩ := storeAll_after_reset_counters s points h1 h2
  have hfreq : calculateFrequency (storeAll (resetDataStorage s) points)
      = (storeAll (resetDataStorage s) points).max_iti_number / 10 := by
    unfold calculateFrequency
    split
    · exact Int.tdiv_eq_ediv (by omega) (by decide)
    · omega
  refine ⟨hiti, hfreq, ?_, ?_⟩
  · rw [hfreq, hmax]
    omega
  · rw [hfreq, hmax]
    omega

/-- C6 as amended, at the 1000 ticks of the specification's example. -/
theorem calculateFrequency_timespan_ten_seconds_witness :
    (1 ≤ (tickPoints 1000).length ∧ (tickPoints 1000).length ≤ 1300) ∧
    (storeAll (resetDataStorage initDataStorage) (tickPoints 1000)).iti_number
      = (tickPoints 1000).length ∧
    calculateFrequency (storeAll (resetDataStorage initDataStorage) (tickPoints 1000))
      = (storeAll (resetDataStorage initDataStorage) (tickPoints 1000)).max_iti_number
          / 10 ∧
    10 * calculateFrequency (storeAll (resetDataStorage initDataStorage) (tickPoints 1000))
      ≤ (tickPoints 1000).length ∧
    ((tickPoints 1000).length : Int)
      < 10 * calculateFrequency
          (storeAll (resetDataStorage initDataStorage) (tickPoints 1000)) + 11 :=
  ⟨⟨by rw [tickPoints_length]; decide, by rw [tickPoints_length]; decide⟩,
    calculateFrequency_timespan_ten_seconds initDataStorage (tickPoints 1000)
      (by rw [tickPoints_length]; decide) (by rw [tickPoints_length]; decide)⟩

/-- C6 as stated fails at `L = 1000`: after a reset and 1000 stores `calculateFrequency`
returns 99, while 1000 samples over 10.5 seconds are 95 to integer precision. -/
theorem calculateFrequency_1000_ticks :
    calculateFrequency (storeAll (resetDataStorage initDataStorage) (tickPoints 1000)) = 99 ∧
    spec_frequency_hz 1000 = 95 ∧
    calculateFrequency (storeAll (resetDataStorage initDataStorage) (tickPoints 1000))
      ≠ spec_frequency_hz 1000 := by
  have hroom : (resetDataStorage initDataStorage).iti_number + (tickPoints 1000).length
      ≤ MAX_DATA_POINTS := by
    rw [tickPoints_length]
    decide
  have hne : tickPoints 1000 ≠ [] := by
    intro h
    have hlen := tickPoints_length 1000
    rw [h] at hlen
    simp at hlen
  have hmax := storeAll_max_iti_number (tickPoints 1000) _ hne hroom
  rw [tickPoints_length] at hmax
  have hcode : calculateFrequency
      (storeAll (resetDataStorage initDataStorage) (tickPoints 1000)) = 99 := by
    unfold calculateFrequency
    rw [hmax]
    decide
  have hspec : spec_frequency_hz 1000 = 95 := by decide
  refine ⟨hcode, hspec, ?_⟩
  rw [hcode, hspec]
  decide

/-- C8, as the code has it. After `resetDataStorage` and 1301 calls of `storeDataPoint`,
`iti_number` is 1300 and each slot `i` of `0 .. 1299` holds index `i` and the `i`-th data
point; the state is the one the first 1300 calls left, and the 1301st call only prints
the warning line. -/
theorem storeAll_1301_keeps_1300 (s : DataStorage) (points : List DataPoint)
    (h : points.length = 1301) :
    (storeAll (resetDataStorage s) points).iti_number = 1300 ∧
    (∀ (i : Nat) (hi : i < points.length), i < 1300 →
      (storeAll (resetDataStorage s) points).Array_index i = i ∧
        (storeAll (resetDataStorage s) points).record i = points[i]) ∧
    storeAll (resetDataStorage s) points
      = storeAll (resetDataStorage s) (points.take 1300) ∧
    storeDataPoint_serial (storeAll (resetDataStorage s) (points.take 1300))
      = ["Warning: Maximum data points reached!"] := by
  have hlen : (points.take 1300).length = 1300 := by
    rw [List.length_take, h]
    rfl
  have hroom : (resetDataStorage s).iti_number + (points.take 1300).length
      ≤ MAX_DATA_POINTS := by
    rw [hlen, resetDataStorage_iti_number]
    decide
  have hiti := storeAll_iti_number (points.take 1300) _ hroom
  rw [hlen, resetDataStorage_iti_number, zero_add] at hiti
  have hfull : MAX_DATA_POINTS ≤
      (storeAll (resetDataStorage s) (points.take 1300)).iti_number := by
    rw [hiti]
    decide
  -- the calls after the first 1300 find the buffer full
  have hrest : ∀ qs : List DataPoint,
      storeAll (storeAll (resetDataStorage s) (points.take 1300)) qs
        = storeAll (resetDataStorage s) (points.take 1300) := by
    intro qs
    induction qs with
    | nil => rfl
    | cons q qs ih =>
      rw [storeAll_cons, storeDataPoint_of_full _ _ _ _ _ _ hfull]
      exact ih
  have hsame : storeAll (resetDataStorage s) points
      = storeAll (resetDataStorage s) (points.take 1300) := by
    conv_lhs => rw [← List.take_append_drop 1300 points]
    rw [storeAll_append, hrest]
  refine ⟨?_, ?_, hsame, ?_⟩
  · rw [hsame]
    exact hiti
  · intro i hi hlt
    have hi2 : i < (points.take 1300).length := by rw [hlen]; exact hlt
    have hslot := storeAll_slot (points.take 1300) _ hroom i hi2
    rw [resetDataStorage_iti_number, zero_add] at hslot
    rw [hsame]
    refine ⟨hslot.1, ?_⟩
    rw [hslot.2]
    simp
  · unfold storeDataPoint_serial
    rw [if_neg (not_lt.mpr hfull)]

/-- C8 as amended, at 1301 ticks of 10 ms. -/
theorem storeAll_1301_keeps_1300_witness :
    (tickPoints 1301).length = 1301 ∧
    (storeAll (resetDataStorage initDataStorage) (tickPoints 1301)).iti_number = 1300 ∧
    (∀ (i : Nat) (hi : i < (tickPoints 1301).length), i < 1300 →
      (storeAll (resetDataStorage initDataStorage) (tickPoints 1301)).Array_index i = i ∧
        (storeAll (resetDataStorage initDataStorage) (tickPoints 1301)).record i
          = (tickPoints 1301)[i]) ∧
    storeAll (resetDataStorage initDataStorage) (tickPoints 1301)
      = storeAll (resetDataStorage initDataStorage) ((tickPoints 1301).take 1300) ∧
    storeDataPoint_serial
        (storeAll (resetDataStorage initDataStorage) ((tickPoints 1301).take 1300))
      = ["Warning: Maximum data points reached!"] :=
  ⟨tickPoints_length 1301,
    storeAll_1301_keeps_1300 initDataStorage (tickPoints 1301) (tickPoints_length 1301)⟩

/-- C8 as stated fails: the state after a reset and 1301 stores is the state after a
reset and the first 1300 of them, so no rejection count or overflow flag read from the
storage state tells the session with one rejected append from the session with none. -/
theorem rejected_append_not_recorded :
    storeAll (resetDataStorage initDataStorage) (tickPoints 1301)
      = storeAll (resetDataStorage initDataStorage) (tickPoints 1300) ∧
    ¬ ∃ rejected : DataStorage → Nat,
      rejected (storeAll (resetDataStorage initDataStorage) (tickPoints 1301)) = 1 ∧
      rejected (storeAll (resetDataStorage initDataStorage) (tickPoints 1300)) = 0 := by
  have hroom : (resetDataStorage initDataStorage).iti_number + (tickPoints 1300).length
      ≤ MAX_DATA_POINTS := by
    rw [tickPoints_length]
    decide
  have hiti := storeAll_iti_number (tickPoints 1300) _ hroom
  rw [tickPoints_length] at hiti
  have hfull : MAX_DATA_POINTS ≤
      (storeAll (resetDataStorage initDataStorage) (tickPoints 1300)).iti_number := by
    rw [hiti]
    decide
  have hsame : storeAll (resetDataStorage initDataStorage) (tickPoints 1301)
      = storeAll (resetDataStorage initDataStorage) (tickPoints 1300) := by
    have hsplit := tickPoints_succ 1300
    rw [show (1300 + 1 : Nat) = 1301 from rfl] at hsplit
    rw [hsplit, storeAll_append, storeAll_cons, storeDataPoint_of_full _ _ _ _ _ _ hfull,
      storeAll_nil]
  refine ⟨hsame, ?_⟩
  rintro ⟨rejected, h1, h0⟩
  rw [hsame, h0] at h1
  exact absurd h1 (by decide)

/-! ## Send status of the ESP-NOW transport -/

theorem runEvents_cons (c : CommState) (e : CommEvent) (es : List CommEvent) :
    runEvents c (e :: es) = runEvents (e.run c) es := rfl

theorem runEvents_append (c : CommState) (es fs : List CommEvent) :
    runEvents c (es ++ fs) = runEvents (runEvents c es) fs := by
  simp [runEvents]

/-- No event clears `sending_error`. -/
theorem run_sending_error_sticky (c : CommState) (e : CommEvent)
    (h : c.sending_error = true) : (e.run c).sending_error = true := by
  cases e with
  | completion status =>
    simp only [CommEvent.run, OnDataSent]
    split
    · rfl
    · exact h
  | submission result =>
    simp only [CommEvent.run, sendESPNowData]
    split
    · exact h
    · rfl

theorem runEvents_sending_error_sticky (es : List CommEvent) :
    ∀ c : CommState, c.sending_error = true → (runEvents c es).sending_error = true := by
  induction es with
  | nil => intro c h; exact h
  | cons e es ih =>
    intro c h
    rw [runEvents_cons]
    exact ih _ (run_sending_error_sticky c e h)

/-- A failed event sets `sending_error`. -/
theorem run_failed_sets_sending_error (c : CommState) (e : CommEvent)
    (h : e.failed = true) : (e.run c).sending_error = true := by
  cases e with
  | completion status =>
    have hs : status ≠ ESP_NOW_SEND_SUCCESS := by simpa [CommEvent.failed] using h
    simp only [CommEvent.run, OnDataSent]
    rw [if_pos hs]
  | submission result =>
    have hr : ¬ result = ESP_OK := by simpa [CommEvent.failed] using h
    simp only [CommEvent.run, sendESPNowData]
    rw [if_neg hr]

/-- One event turns `sending_error` on exactly when it is a failure, and leaves it as it
was otherwise. -/
theorem run_sending_error (c : CommState) (e : CommEvent) :
    (e.run c).sending_error = (c.sending_error || e.failed) := by
  cases e with
  | completion status =>
    by_cases hs : status = ESP_NOW_SEND_SUCCESS
    · simp [CommEvent.run, OnDataSent, CommEvent.failed, hs]
    · simp [CommEvent.run, OnDataSent, CommEvent.failed, hs]
  | submission result =>
    by_cases hr : result = ESP_OK
    · simp [CommEvent.run, sendESPNowData, CommEvent.failed, hr]
    · simp [CommEvent.run, sendESPNowData, CommEvent.failed, hr]

/-- After a sequence of events `sending_error` is set exactly when it was set before or
one of the events was a failure. -/
theorem runEvents_sending_error (es : List CommEvent) :
    ∀ c : CommState,
      (runEvents c es).sending_error = (c.sending_error || es.any CommEvent.failed) := by
  induction es with
  | nil => intro c; simp [runEvents]
  | cons e es ih =>
    intro c
    rw [runEvents_cons, ih, run_sending_error, List.any_cons, Bool.or_assoc]

/-- C10. `sendESPNowData` returns `true` exactly when the submission is accepted, and a
rejected submission returns `false` with `sending_error` set. After any sequence of
submissions and completion callbacks, from any flag state, `sending_error` is set exactly
when it was set before or the sequence held a completion with a status other than
success or a rejected submission; so a failure shows afterwards whatever events follow
it, and nothing clears the flag. From the initial flags, after exactly one failed
completion among events that all succeed the recorded failure count is 1, it stays 1
over any further successful events, and it is 0 as long as no event has failed. -/
theorem send_failure_recorded (c : CommState) (events : List CommEvent) :
    (∀ (d : CommState) (result : Int),
      ((sendESPNowData d result).1 = true ↔ result = ESP_OK) ∧
      (result ≠ ESP_OK → (sendESPNowData d result).1 = false ∧
        (sendESPNowData d result).2.sending_error = true)) ∧
    (runEvents c events).sending_error
      = (c.sending_error || events.any CommEvent.failed) ∧
    (∀ (earlier later : List CommEvent) (e : CommEvent), e.failed = true →
      (runEvents c (earlier ++ e :: later)).sending_error = true) ∧
    (∀ (earlier later further : List CommEvent) (status : Int),
      status ≠ ESP_NOW_SEND_SUCCESS →
      (∀ x ∈ earlier ++ later ++ further, CommEvent.failed x = false) →
      (runEvents CommState.initial earlier).recordedFailures = 0 ∧
      (runEvents CommState.initial
        (earlier ++ CommEvent.completion status :: later)).recordedFailures = 1 ∧
      (runEvents (runEvents CommState.initial
        (earlier ++ CommEvent.completion status :: later)) further).recordedFailures
          = 1) := by
  refine ⟨?_, runEvents_sending_error events c, ?_, ?_⟩
  · intro d result
    unfold sendESPNowData
    by_cases hr : result = ESP_OK
    · simp [hr]
    · simp [hr]
  · intro earlier later e he
    rw [runEvents_append, runEvents_cons]
    exact runEvents_sending_error_sticky later _ (run_failed_sets_sending_error _ e he)
  · intro earlier later further status hs hok
    have hfail : (CommEvent.completion status).failed = true := by
      simp [CommEvent.failed, hs]
    have hnone : earlier.any CommEvent.failed = false := by
      rw [List.any_eq_false]
      intro x hx
      rw [hok x (by simp [hx])]
      simp
    have hset : (runEvents CommState.initial
        (earlier ++ CommEvent.completion status :: later)).sending_error = true := by
      rw [runEvents_append, runEvents_cons]
      exact runEvents_sending_error_sticky later _ (run_failed_sets_sending_error _ _ hfail)
    refine ⟨?_, ?_, ?_⟩
    · unfold CommState.recordedFailures
      rw [runEvents_sending_error, hnone]
      simp [CommState.initial]
    · unfold CommState.recordedFailures
      rw [hset]
      rfl
    · unfold CommState.recordedFailures
      rw [runEvents_sending_error_sticky further _ hset]
      rfl

/-- C10 at a session of accepted submissions and successful completions with one failed
completion in the middle, followed by further successful completions. -/
theorem send_failure_recorded_witness :
    (runEvents CommState.initial
      [.submission ESP_OK, .completion ESP_NOW_SEND_SUCCESS, .submission ESP_OK]
      ).recordedFailures = 0 ∧
    (runEvents CommState.initial
      ([.submission ESP_OK, .completion ESP_NOW_SEND_SUCCESS, .submission ESP_OK] ++
        .completion ESP_NOW_SEND_FAIL ::
        [.submission ESP_OK, .completion ESP_NOW_SEND_SUCCESS])).recordedFailures = 1 ∧
    (runEvents (runEvents CommState.initial
      ([.submission ESP_OK, .completion ESP_NOW_SEND_SUCCESS, .submission ESP_OK] ++
        .completion ESP_NOW_SEND_FAIL ::
        [.submission ESP_OK, .completion ESP_NOW_SEND_SUCCESS]))
      [.completion ESP_NOW_SEND_SUCCESS, .completion ESP_NOW_SEND_SUCCESS]
      ).recordedFailures = 1 :=
  (send_failure_recorded CommState.initial []).2.2.2
    [.submission ESP_OK, .completion ESP_NOW_SEND_SUCCESS, .submission ESP_OK]
    [.submission ESP_OK, .completion ESP_NOW_SEND_SUCCESS]
    [.completion ESP_NOW_SEND_SUCCESS, .completion ESP_NOW_SEND_SUCCESS]
    ESP_NOW_SEND_FAIL (by decide) (by decide)

/-! ## Elapsed time of the sample cycle -/

/-- The `uint32_t` difference between a reading taken `d` microseconds after `s` and `s`
itself is `d`, whether or not the counter wrapped in between. -/
theorem uint32_sub_wrapped (s d : Nat) (hs : s < 2 ^ 32) (hd : d < 2 ^ 32) :
    uint32_sub ((s + d) % 2 ^ 32) s = d := by
  unfold uint32_sub
  norm_num at hs hd ⊢
  omega

/-- C11. For a start time `s` and an elapsed duration `d`, both below `2 ^ 32`
microseconds: `startSampling` at reading `s` records `s` as `measurementStartMicros`,
and from any state with that start time the sample cycle `onSampleTimer` at the reading
`(s + d) mod 2 ^ 32` hands `storeDataPoint` the elapsed time `d / 1000` rounded down
(with the current mode and the five sensor values) and keeps the start time, also when
the counter wrapped. -/
theorem onSampleTimer_elapsed_ms {σ : Type} (ops : StorageOps σ) (p : SensorProvider)
    (st : Sampling σ) (mode : Int) (s d : Nat) (hs : s < 2 ^ 32) (hd : d < 2 ^ 32) :
    (startSampling ops mode s st).measurementStartMicros = s ∧
    uint32_sub ((s + d) % 2 ^ 32) s / 1000 = d / 1000 ∧
    (∀ tick : Sampling σ, tick.measurementStartMicros = s →
      (onSampleTimer ops p ((s + d) % 2 ^ 32) tick).storage =
        ops.storeDataPoint tick.storage (d / 1000) tick.measurementMode
          (Glove_Refactored.readSensors p tick.measurementMode).value1
          (Glove_Refactored.readSensors p tick.measurementMode).value2
          (Glove_Refactored.readSensors p tick.measurementMode).value3
          (Glove_Refactored.readSensors p tick.measurementMode).value4
          (Glove_Refactored.readSensors p tick.measurementMode).value5 ∧
      (onSampleTimer ops p ((s + d) % 2 ^ 32) tick).measurementStartMicros = s) := by
  refine ⟨rfl, ?_, ?_⟩
  · rw [uint32_sub_wrapped s d hs hd]
  · intro tick hstart
    refine ⟨?_, hstart⟩
    simp only [onSampleTimer]
    rw [hstart, uint32_sub_wrapped s d hs hd]

/-- C11 at a session started 500 µs before the counter wraps, with ticks 2500 µs and
12999 µs later (readings 2000 and 12499): the log receives 2 and then 12. -/
theorem onSampleTimer_elapsed_ms_witness :
    (4294966796 < 2 ^ 32 ∧ 2500 < 2 ^ 32) ∧
    (4294966796 + 2500) % 2 ^ 32 = 2000 ∧
    (startSampling elapsedLog 3 4294966796
      { measurementStartMicros := 0, measurementMode := 0, samplingTimer := none,
        storage := [7] }).measurementStartMicros = 4294966796 ∧
    uint32_sub ((4294966796 + 2500) % 2 ^ 32) 4294966796 / 1000 = 2500 / 1000 ∧
    (onSampleTimer elapsedLog saturatedProvider 12499
      (onSampleTimer elapsedLog saturatedProvider 2000
        (startSampling elapsedLog 3 4294966796
          { measurementStartMicros := 0, measurementMode := 0, samplingTimer := none,
            storage := [7] }))).storage = [12, 2] :=
  ⟨⟨by decide, by decide⟩, by decide,
    (onSampleTimer_elapsed_ms elapsedLog saturatedProvider
      { measurementStartMicros := 0, measurementMode := 0, samplingTimer := none,
        storage := [7] } 3 4294966796 2500 (by decide) (by decide)).1,
    (onSampleTimer_elapsed_ms elapsedLog saturatedProvider
      { measurementStartMicros := 0, measurementMode := 0, samplingTimer := none,
        storage := [7] } 3 4294966796 2500 (by decide) (by decide)).2.1,
    by decide⟩

end PDGlove
